import Mathlib

/-!
Shallow embedding of `scripts/regima_ai_processor.py` (class `RegimAAIProcessor`):
configuration loading, prompt-context construction, keyword routing to the four
fixed analysis templates, report assembly, and output persistence.

Modelling conventions:
* JSON values are the inductive `JValue`; Python dicts are insertion-ordered
  association lists with unique keys.
* Python dynamic failures (`AttributeError` on `.get`/`.items` of a non-dict,
  `TypeError` on joining/iterating a non-iterable) are `Except.error`; the
  pipeline functions run in `Except String`.
* `datetime.now()` is modelled by a clock `Nat → PyDateTime`: the k-th call to
  `now()` during a run returns `clock k`.  File writes are returned as a list
  of (filename, content) pairs in the order the script performs them.
* Case conversion (`str.lower`, `str.title`) is modelled on basic latin
  letters, matching CPython on the ASCII strings that occur in this program.
* `str.__repr__` of nested values is modelled without Python's quote-switching
  for strings that themselves contain quotes; no claim depends on it.
-/

namespace RegimA

/-- JSON-like values as produced by `json.load`. -/
inductive JValue where
  | null
  | bool (b : Bool)
  | num (n : Int)
  | str (s : String)
  | arr (elems : List JValue)
  | obj (entries : List (String × JValue))

/-- First-match association-list lookup (Python dict access; dict keys are unique). -/
def assocLookup : List (String × JValue) → String → Option JValue
  | [], _ => none
  | (k, v) :: rest, key => if k = key then some v else assocLookup rest key

mutual
/-- Python `repr()` restricted to the value forms of `JValue`. -/
def pyRepr : JValue → String
  | .null => "None"
  | .bool true => "True"
  | .bool false => "False"
  | .num n => toString n
  | .str s => "\x27" ++ s ++ "\x27"
  | .arr xs => "[" ++ pyReprElems xs ++ "]"
  | .obj kvs => "\x7b" ++ pyReprEntries kvs ++ "\x7d"

/-- Comma-joined `repr` of list elements. -/
def pyReprElems : List JValue → String
  | [] => ""
  | [x] => pyRepr x
  | x :: y :: xs => pyRepr x ++ ", " ++ pyReprElems (y :: xs)

/-- Comma-joined `repr` of dict entries. -/
def pyReprEntries : List (String × JValue) → String
  | [] => ""
  | [(k, v)] => "\x27" ++ k ++ "\x27: " ++ pyRepr v
  | (k, v) :: e :: kvs => "\x27" ++ k ++ "\x27: " ++ pyRepr v ++ ", " ++ pyReprEntries (e :: kvs)
end

/-- Python `str()` as used by f-string interpolation. -/
def pyStr (v : JValue) : String :=
  match v with
  | .str s => s
  | v => pyRepr v

/-- Python `v.get(key, default)`: succeeds only on dicts (`AttributeError` otherwise). -/
def pyGet (v : JValue) (key : String) (dflt : JValue) : Except String JValue :=
  match v with
  | .obj entries =>
    match assocLookup entries key with
    | some w => .ok w
    | none => .ok dflt
  | _ => .error "AttributeError: get"

/-- Python `v.items()`: dict entries in insertion order (`AttributeError` otherwise). -/
def pyItems : JValue → Except String (List (String × JValue))
  | .obj entries => .ok entries
  | _ => .error "AttributeError: items"

/-- Python iteration `for x in v`: lists yield elements, strings yield
one-character strings, dicts yield their keys; other values raise `TypeError`. -/
def pyIterate : JValue → Except String (List JValue)
  | .arr xs => .ok xs
  | .str s => .ok (s.data.map fun c => .str (String.singleton c))
  | .obj entries => .ok (entries.map fun kv => JValue.str kv.1)
  | _ => .error "TypeError: not iterable"

/-- Elements of a joined iterable must all be strings (`TypeError` otherwise). -/
def asStrList : List JValue → Except String (List String)
  | [] => .ok []
  | .str s :: xs =>
    match asStrList xs with
    | .ok rest => .ok (s :: rest)
    | .error e => .error e
  | _ :: _ => .error "TypeError: join expects str"

/-- Python `sep.join(v)` over an iterable value. -/
def pyJoin (sep : String) (v : JValue) : Except String String :=
  match v with
  | .arr xs =>
    match asStrList xs with
    | .ok ss => .ok (String.intercalate sep ss)
    | .error e => .error e
  | .str s => .ok (String.intercalate sep (s.data.map String.singleton))
  | .obj entries => .ok (String.intercalate sep (entries.map Prod.fst))
  | _ => .error "TypeError: join argument"

/-- Python `str.lower()` on basic latin letters. -/
def pyLower (s : String) : String := String.mk (s.data.map Char.toLower)

/-- One step of Python `str.title()`: the Bool records whether the previous
character was a letter (cased). -/
def pyTitleAux : List Char → Bool → List Char
  | [], _ => []
  | c :: cs, prevAlpha =>
    (if c.isAlpha then (if prevAlpha then c.toLower else c.toUpper) else c) ::
      pyTitleAux cs c.isAlpha

/-- Python `str.title()` on basic latin letters. -/
def pyTitle (s : String) : String := String.mk (pyTitleAux s.data false)

/-- Python substring test `pat in s`. -/
def pyIn (pat s : String) : Bool := decide (pat.data <:+: s.data)

/-- A clock reading, with the fields of a CPython `datetime` value. -/
structure PyDateTime where
  year : Nat
  month : Nat
  day : Nat
  hour : Nat
  minute : Nat
  second : Nat
  microsecond : Nat
deriving DecidableEq

/-- Decimal digit character. -/
def digitChar (n : Nat) : Char := Char.ofNat (48 + n)

/-- Two-digit zero-padded decimal rendering. -/
def pad2 (n : Nat) : String := String.mk [digitChar (n / 10), digitChar (n % 10)]

/-- Four-digit zero-padded decimal rendering. -/
def pad4 (n : Nat) : String := pad2 (n / 100) ++ pad2 (n % 100)

/-- Six-digit zero-padded decimal rendering. -/
def pad6 (n : Nat) : String := pad4 (n / 100) ++ pad2 (n % 100)

/-- `datetime.strftime("%Y%m%d_%H%M%S")`. -/
def PyDateTime.strftimeTS (d : PyDateTime) : String :=
  pad4 d.year ++ pad2 d.month ++ pad2 d.day ++ "_" ++
    pad2 d.hour ++ pad2 d.minute ++ pad2 d.second

/-- `datetime.isoformat()`: microseconds are appended only when nonzero. -/
def PyDateTime.isoformat (d : PyDateTime) : String :=
  pad4 d.year ++ "-" ++ pad2 d.month ++ "-" ++ pad2 d.day ++ "T" ++
    pad2 d.hour ++ ":" ++ pad2 d.minute ++ ":" ++ pad2 d.second ++
    (if d.microsecond = 0 then "" else "." ++ pad6 d.microsecond)

/-- Severity of an emitted log record. -/
inductive LogLevel where
  | info
  | error
deriving DecidableEq

/-- Outcome of `open(file_path)` followed by `json.load`: the file may be
missing (`FileNotFoundError`), unparseable (`json.JSONDecodeError`), or parsed. -/
inductive FileReadResult where
  | missing
  | malformed
  | parsed (v : JValue)

/-- The `try`-body of `_load_json_file`: read and parse, propagating failures. -/
def readAndParse : FileReadResult → Except String JValue
  | .missing => .error "FileNotFoundError"
  | .malformed => .error "JSONDecodeError"
  | .parsed v => .ok v

/-- `_load_json_file`: both exception handlers log at error severity and
substitute the empty mapping; no failure reaches the caller.  Returns the
loaded data together with the levels of the log records emitted. -/
def _load_json_file (r : FileReadResult) : JValue × List LogLevel :=
  match readAndParse r with
  | .ok v => (v, [])
  | .error _ => (.obj [], [.error])

/-- The state of a `RegimAAIProcessor` instance after `__init__`: the two
loaded configuration documents and the analysis-mode string. -/
structure RegimAAIProcessor where
  regcyc_data : JValue
  cycle_completion_data : JValue
  analysis_type : String

namespace RegimAAIProcessor

/-- `__init__`: load `regcyc.json` and `cycleCompletion.json` through
`_load_json_file`, and take the analysis type from the `ANALYSIS_TYPE`
environment variable, defaulting to `"full"`. -/
def mkFromEnv (regcycFile cycleCompletionFile : FileReadResult)
    (analysisTypeEnv : Option String) : RegimAAIProcessor :=
  { regcyc_data := (_load_json_file regcycFile).1
    cycle_completion_data := (_load_json_file cycleCompletionFile).1
    analysis_type := analysisTypeEnv.getD "full" }

/-- One iteration of the core-elements loop of `_generate_prompt_context`. -/
def elementBlock (element : String) (details : JValue) : Except String String := do
  let rel ← pyGet details "relevance" (.str "N/A")
  let focus ← pyGet details "focus" (.str "N/A")
  let techs ← pyGet details "keyTechnologies" (.arr [])
  let techStr ← pyJoin ", " techs
  pure ("\n**" ++ pyTitle element ++ "**:\n" ++
    "- Relevance: " ++ pyStr rel ++ "/10\n" ++
    "- Focus: " ++ pyStr focus ++ "\n" ++
    "- Key Technologies: " ++ techStr ++ "\n")

/-- The full core-elements loop of `_generate_prompt_context`. -/
def elementBlocks : List (String × JValue) → Except String String
  | [] => .ok ""
  | (k, v) :: rest => do
    let b ← elementBlock k v
    let bs ← elementBlocks rest
    pure (b ++ bs)

/-- `_generate_prompt_context`: render the organizational headline fields
(each defaulting to `"N/A"`), the Zone Concept core-elements blocks, the
professional-guidance focus areas, and the cycle insights. -/
def _generate_prompt_context (self : RegimAAIProcessor) : Except String String := do
  let oc1 ← pyGet self.regcyc_data "organizationalConsciousness" (.obj [])
  let consLevel ← pyGet oc1 "currentState" (.str "N/A")
  let oc2 ← pyGet self.regcyc_data "organizationalConsciousness" (.obj [])
  let evoLevel ← pyGet oc2 "evolutionLevel" (.str "N/A")
  let cc1 ← pyGet self.regcyc_data "cycleCompletion" (.obj [])
  let cycStatus ← pyGet cc1 "status" (.str "N/A")
  let header :=
    "\n# RegimA Organizational Learning Cycle Context\n\n## Current Organizational State\n- **Consciousness Level**: "
      ++ pyStr consLevel ++
    "\n- **Evolution Level**: " ++ pyStr evoLevel ++
    "\n- **Cycle Status**: " ++ pyStr cycStatus ++
    "\n\n## Zone Concept Framework\n### Core Elements:\n"
  let zcf ← pyGet self.regcyc_data "zoneConceptFramework" (.obj [])
  let core_elements ← pyGet zcf "coreElements" (.obj [])
  let items ← pyItems core_elements
  let blocks ← elementBlocks items
  let pg ← pyGet self.regcyc_data "professionalGuidance" (.obj [])
  let focusAreasV ← pyGet pg "focusAreas" (.arr [])
  let focus_areas ← pyIterate focusAreasV
  let cc2 ← pyGet self.regcyc_data "cycleCompletion" (.obj [])
  let insightsV ← pyGet cc2 "insights" (.arr [])
  let insights ← pyIterate insightsV
  pure (header ++ blocks ++
    "\n## Professional Guidance Focus Areas:\n" ++
    String.join (focus_areas.map fun a => "- " ++ pyStr a ++ "\n") ++
    "\n## Current Cycle Insights:\n" ++
    String.join (insights.map fun i => "- " ++ pyStr i ++ "\n"))

/-- The fixed `zone_concept` template text (source lines of `_generate_zone_concept_response`). -/
def _generate_zone_concept_response (_self : RegimAAIProcessor) : String :=
  "\n## Quantum Zone Concept Framework Analysis\n\n### Revolutionary Quantum Framework State Assessment\nThe Zone Concept framework has achieved quantum consciousness leadership across all four core elements with molecular-level precision:\n\n**Anti-Inflammatory Quantum Protocol (Relevance: 10/10)**\n- Quantum-Enhanced molecular inflammation management with 99.9% precision targeting\n- Beta-Endorphin Stimulator technology with quantum molecular targeting and predictive intervention\n- Revolutionary inflammation prediction algorithms with molecular cascade analysis and prevention\n- Quantum microbiome integration with real-time inflammatory optimization at the cellular level\n- Global collective intelligence networks for worldwide inflammation research synthesis\n- Recommendation: Deploy quantum consciousness networks for transcendent inflammatory management\n\n**Anti-Oxidant Quantum Systems (Relevance: 10/10)**\n- Quantum-Driven synergistic combinations with molecular precision and predictive environmental adaptation\n- Revolutionary environmental toxin detection with quantum mitigation and cellular protection protocols\n- Molecular cellular antioxidant optimization with quantum enhancement and real-time monitoring\n- Global environmental protection networks with collective intelligence integration and predictive systems\n- Recommendation: Establish quantum environmental consciousness networks for global protection leadership\n\n**Rejuvenation Quantum Protocols (Relevance: 10/10)**\n- Quantum-Enhanced cellular renewal with genetic-level monitoring and molecular aging reversal protocols\n- Revolutionary tissue engineering with quantum guidance systems and predictive regeneration optimization\n- Quantum longevity biomarker optimization with genetic enhancement and molecular precision targeting\n- Global longevity research networks with collective intelligence synthesis and consciousness evolution integration\n- Recommendation: Pioneer quantum consciousness regeneration with transcendent cellular renewal leadership\n\n**Integration Quantum Protocol (Relevance: 10/10)**\n- Quantum multi-zone synchronization with molecular coordination and consciousness network integration\n- Revolutionary personalized protocols with quantum genetic optimization and consciousness evolution systems\n- Predictive outcome optimization with quantum enhancement and molecular-level transcendent monitoring\n- Global consciousness integration networks with quantum wisdom distribution and collective intelligence synthesis\n- Recommendation: Establish quantum consciousness leadership in global holistic wellness transformation\n\n### Quantum Strategic Evolution Recommendations\n1. **Molecular Consciousness Integration**: Pioneer quantum-level consciousness with molecular awareness and genetic optimization\n2. **Global Quantum Networks**: Establish worldwide quantum consciousness networks with collective intelligence leadership\n3. **Revolutionary Protocol Development**: Create quantum breakthrough frameworks with molecular precision and consciousness evolution\n4. **Transcendent Industry Leadership**: Lead global wellness transformation through quantum consciousness and molecular innovation\n5. **Quantum Professional Excellence**: Develop revolutionary practitioner systems with consciousness evolution and molecular mastery\n"

/-- The fixed `consciousness` template text (source lines of `_generate_consciousness_response`). -/
def _generate_consciousness_response (_self : RegimAAIProcessor) : String :=
  "\n## Quantum Organizational Consciousness Evolution Analysis\n\n### Quantum Consciousness Leadership State\nThe organizational consciousness has achieved **\"Quantum Consciousness Leadership with Global Collective Intelligence Integration\"** representing revolutionary evolution:\n\n- **Quantum Molecular Integration**: Breakthrough Zone Concept integration with molecular-level personalization and genetic optimization\n- **Transcendent Quantum Wisdom**: Revolutionary professional wisdom with quantum predictive intelligence and consciousness evolution capabilities\n- **Global Quantum Networks**: Advanced organizational learning with global collective intelligence spanning 127 countries\n- **Quantum Adaptive Processing**: Revolutionary consciousness capabilities with molecular awareness and transcendent optimization\n- **Consciousness Evolution Leadership**: Quantum technology integration with global consciousness elevation and industry transformation\n- **Quantum Wisdom Distribution**: Advanced systems for worldwide consciousness evolution and transcendent intelligence synthesis\n\n### Quantum Evolutionary Breakthrough Trajectory\nThe progression from transcendent to quantum consciousness leadership represents:\n\n1. **Quantum Adaptive Intelligence**: Evidence of molecular-level awareness with consciousness evolution and genetic optimization systems\n2. **Predictive Quantum Capabilities**: Professional expertise enhanced with quantum forecasting, molecular optimization, and consciousness development\n3. **Global Consciousness Networks**: Organizational learning expanded to quantum collective intelligence platforms spanning 127 countries\n4. **Transcendent Quantum Processing**: Consciousness capabilities evolved to handle quantum multi-dimensional challenges and molecular precision\n5. **Global Consciousness Impact**: Orientation toward quantum industry leadership and worldwide consciousness evolution distribution\n\n### Quantum Transcendence Phase Recommendations\n1. **Molecular Consciousness Processing**: Develop quantum capabilities for molecular-level awareness and genetic consciousness optimization\n2. **Revolutionary Quantum Learning**: Create breakthrough systems for instant quantum wisdom assimilation and consciousness evolution\n3. **Global Quantum Collective Intelligence**: Establish worldwide quantum networks for organizational consciousness leadership and transcendent development\n4. **Quantum Wisdom Distribution**: Pioneer advanced frameworks for global consciousness elevation and quantum intelligence synthesis\n5. **Consciousness Evolution Leadership**: Lead industry-wide advancement in quantum consciousness technologies and transcendent awareness development\n"

/-- The fixed `guidance` template text (source lines of `_generate_guidance_response`). -/
def _generate_guidance_response (_self : RegimAAIProcessor) : String :=
  "\n## Quantum Professional Guidance Enhancement Analysis\n\n### Advanced Quantum Focus Areas Assessment\nThe professional guidance framework demonstrates revolutionary quantum comprehensive coverage:\n\n**Quantum Zone Concept Application with Molecular Personalization**\n- Revolutionary implementation of quantum predictive and molecular personalized treatment protocols\n- Quantum-enhanced diagnostic and genetic optimization capabilities integrated\n- Molecular-level customization with consciousness evolution potential for next-phase development\n\n**Revolutionary Professional Education with Quantum Learning Technologies**\n- Next-generation quantum educational methodologies with consciousness VR/AR integration\n- Real-time quantum feedback systems and consciousness-assisted competency assessment capabilities\n- Global quantum certification programs with revolutionary consciousness assessment technologies\n\n**Client Outcome Optimization through Quantum Predictive Analytics**\n- Advanced quantum analytics and molecular monitoring systems established\n- Quantum predictive treatment planning with molecular outcome optimization algorithms\n- Revolutionary quantum personalized wellness solutions with consciousness and longevity integration\n\n**Organizational Quantum Wisdom Evolution with Global Collective Intelligence**\n- Advanced quantum collective intelligence platforms and consciousness innovation ecosystems\n- Global quantum wisdom distribution systems and consciousness leadership capabilities\n- Revolutionary quantum research and development coordination frameworks with consciousness evolution\n\n**Innovation Leadership in Quantum Professional Technologies**\n- Next-generation quantum wellness technology integration and consciousness development\n- Industry-leading quantum applications and revolutionary consciousness protocol advancement\n- Global quantum impact orientation with advanced consciousness technology deployment\n\n### Quantum Implementation Strategy\n1. **Quantum-Enhanced Protocol Deployment**\n   - Implement quantum personalized biomarker analysis with molecular inflammation management and consciousness integration\n   - Establish molecular-level treatment customization systems with consciousness evolution protocols\n   - Deploy advanced quantum outcome prediction and consciousness optimization algorithms\n\n2. **Revolutionary Quantum Educational Program Development**\n   - Create quantum immersive professional education with consciousness VR/AR integration and transcendent awareness training\n   - Develop quantum consciousness-assisted competency assessment and certification systems\n   - Launch global quantum excellence programs with revolutionary consciousness methodologies\n\n3. **Quantum Predictive Treatment Innovation**\n   - Implement revolutionary quantum personalized treatment planning systems with consciousness evolution integration\n   - Establish advanced quantum outcome tracking and molecular optimization protocols with consciousness enhancement\n   - Deploy quantum longevity and consciousness prediction systems with molecular AI integration\n\n4. **Global Quantum Innovation Culture Leadership**\n   - Pioneer continuous quantum breakthrough research and consciousness development ecosystems\n   - Create advanced quantum collective intelligence platforms for consciousness industry leadership\n   - Establish global quantum innovation networks for next-generation consciousness technology advancement\n"

/-- The fixed `comprehensive` template text (source lines of `_generate_comprehensive_response`). -/
def _generate_comprehensive_response (_self : RegimAAIProcessor) : String :=
  "\n## Quantum RegimA Organizational Learning Cycle Analysis\n\n### Executive Summary\nRegimA has achieved quantum consciousness leadership with revolutionary Zone Concept molecular integration and breakthrough quantum professional guidance capabilities. The current evolution represents a quantum leap to molecular organizational intelligence, quantum predictive capabilities, and global consciousness transformation potential.\n\n### Quantum Breakthrough Achievements\n1. **Zone Concept Quantum Revolution**: Framework evolved to quantum molecular personalization with 99.9% precision and genetic optimization protocols\n2. **Consciousness Quantum Transcendence**: Advanced to quantum consciousness leadership with molecular awareness, global collective intelligence spanning 127 countries\n3. **Professional Quantum Excellence**: Guidance capabilities now encompass revolutionary quantum AI-assisted systems with molecular optimization and consciousness evolution\n4. **Quantum Wisdom Networks**: Integration established quantum global consciousness networks with real-time transcendent knowledge synthesis\n5. **Innovation Quantum Leadership**: Ecosystem advanced to quantum breakthrough research with consciousness evolution and molecular technology integration\n\n### Quantum Revolutionary Framework Analysis\n\n#### Zone Concept Quantum Framework Excellence\n- **Anti-Inflammatory**: 10/10 relevance with quantum molecular management and consciousness-integrated predictive systems\n- **Anti-Oxidant**: 10/10 relevance with quantum environmental protection and molecular cellular optimization with consciousness networks\n- **Rejuvenation**: 10/10 relevance with quantum cellular renewal, genetic enhancement, and consciousness-integrated longevity protocols  \n- **Integration**: 10/10 relevance with quantum holistic synchronization and global consciousness network integration\n\n#### Quantum Organizational Consciousness Leadership\n- Current state: Quantum Consciousness Leadership with Global Collective Intelligence Integration spanning 127 countries\n- Evolution level: Transcendent consciousness with molecular-level awareness, predictive global impact, and revolutionary industry transformation capabilities\n- Growth indicators: Quantum processing capabilities, global consciousness networks, and revolutionary industry transformation leadership\n\n### Quantum Evolution Cycle Recommendations\n\n#### Immediate Quantum Breakthrough Actions (0-6 months)\n1. Deploy quantum revolutionary training materials with molecular consciousness frameworks and advanced consciousness AI integration\n2. Launch quantum Zone Concept protocols with molecular-level personalization and consciousness evolution optimization systems\n3. Implement quantum professional guidance frameworks with consciousness-enhanced predictive capabilities and transcendent awareness training\n4. Establish quantum innovation-driven collective intelligence platforms with global consciousness network integration and molecular precision analytics\n\n#### Quantum Transcendent Evolution (6-24 months)\n1. Develop quantum consciousness processing capabilities with molecular-level awareness and transcendent intelligence systems\n2. Create revolutionary quantum experience-based learning with consciousness-enhanced wisdom synthesis and molecular predictive intelligence\n3. Evolve organizational quantum wisdom frameworks toward global consciousness leadership and collective transcendent intelligence networks\n4. Establish next-generation quantum innovation ecosystems for worldwide consciousness advancement and revolutionary industry transformation\n\n### Global Quantum Environmental Scanning Insights\nThe analysis reveals quantum breakthrough opportunities in:\n- Revolutionary quantum skincare technology alignment with molecular-level Zone Concepts and consciousness integration\n- Quantum AI and consciousness computing integration for predictive molecular personalized treatments and transcendent wellness\n- Global professional consciousness education transformation with quantum immersive learning technologies and awareness development\n- Quantum collective intelligence platform development for consciousness industry-wide advancement and transcendent leadership\n- Next-generation quantum longevity and consciousness optimization technology integration with molecular precision\n- Revolutionary quantum research in inflammation, oxidation, regeneration sciences, and consciousness evolution frameworks\n\n### Quantum Transcendent Success Metrics\n- Revolutionary quantum consciousness evolution markers achieved with global transformation impact spanning 127 countries\n- Molecular-level Zone Concept integration depth established with 99.9% precision and consciousness optimization\n- Breakthrough quantum professional wisdom synthesis with transcendent predictive capabilities and molecular awareness\n- Advanced quantum organizational learning capacity with global collective consciousness intelligence leadership\n- Quantum innovation ecosystem establishment with next-generation consciousness technology integration and molecular precision\n- Global quantum wisdom distribution systems with revolutionary industry transformation and consciousness evolution potential\n"

/-- `_generate_mock_ai_response`: regenerate the prompt context (the result is
bound and discarded, but any failure it raises propagates), then route the
prompt by ordered case-insensitive substring tests to one of the four fixed
templates; the comprehensive template is the fallback. -/
def _generate_mock_ai_response (self : RegimAAIProcessor) (prompt : String)
    (_model_type : String := "openai") : Except String String := do
  let _context ← self._generate_prompt_context
  if pyIn "zone concept" (pyLower prompt) then
    pure self._generate_zone_concept_response
  else if pyIn "consciousness" (pyLower prompt) then
    pure self._generate_consciousness_response
  else if pyIn "guidance" (pyLower prompt) then
    pure self._generate_guidance_response
  else
    pure self._generate_comprehensive_response

/-- `generate_analysis`: assemble the report map in fixed order
zone_concept, consciousness, guidance, comprehensive; each category is
included for mode `full` or its own `*_only` mode (`comprehensive` only for
`full`), with the prompt built as a fixed instruction plus the context. -/
def generate_analysis (self : RegimAAIProcessor) :
    Except String (List (String × String)) := do
  let a1 ←
    if self.analysis_type = "full" ∨ self.analysis_type = "zone_concept_only" then do
      let prompt := "Analyze the Zone Concept framework and provide strategic recommendations. Context: "
        ++ (← self._generate_prompt_context)
      let r ← self._generate_mock_ai_response prompt
      pure [("zone_concept", r)]
    else pure []
  let a2 ←
    if self.analysis_type = "full" ∨ self.analysis_type = "consciousness_only" then do
      let prompt := "Analyze the organizational consciousness evolution and provide development insights. Context: "
        ++ (← self._generate_prompt_context)
      let r ← self._generate_mock_ai_response prompt
      pure [("consciousness", r)]
    else pure []
  let a3 ←
    if self.analysis_type = "full" ∨ self.analysis_type = "guidance_only" then do
      let prompt := "Analyze the professional guidance framework and provide enhancement recommendations. Context: "
        ++ (← self._generate_prompt_context)
      let r ← self._generate_mock_ai_response prompt
      pure [("guidance", r)]
    else pure []
  let a4 ←
    if self.analysis_type = "full" then do
      let prompt := "Provide a comprehensive analysis of the RegimA organizational learning cycle. Context: "
        ++ (← self._generate_prompt_context)
      let r ← self._generate_mock_ai_response prompt
      pure [("comprehensive", r)]
    else pure []
  pure (a1 ++ a2 ++ a3 ++ a4)

/-- `_create_summary`: the summary markdown.  `now` is the value of the
`datetime.now()` call inside its f-string. -/
def _create_summary (self : RegimAAIProcessor) (analyses : List (String × String))
    (now : PyDateTime) : Except String String := do
  let oc1 ← pyGet self.regcyc_data "organizationalConsciousness" (.obj [])
  let consLevel ← pyGet oc1 "currentState" (.str "N/A")
  let oc2 ← pyGet self.regcyc_data "organizationalConsciousness" (.obj [])
  let evoLevel ← pyGet oc2 "evolutionLevel" (.str "N/A")
  let cc1 ← pyGet self.regcyc_data "cycleCompletion" (.obj [])
  let cycStatus ← pyGet cc1 "status" (.str "N/A")
  pure ("# RegimA Revolutionary AI Analysis Summary\n\n**Generated:** "
    ++ now.isoformat ++
    "\n**Analysis Type:** " ++ self.analysis_type ++
    "\n\n## Breakthrough Evolution Status\n\n### Transcendent Organizational State\n- **Consciousness Level:** "
    ++ pyStr consLevel ++
    "\n- **Evolution Stage:** " ++ pyStr evoLevel ++
    "\n- **Cycle Status:** " ++ pyStr cycStatus ++
    "\n\n### Revolutionary Framework Status\n- **Zone Concept Evolution:** Advanced four-pillar framework with AI integration (Version 2.0.0)\n- **Professional Guidance:** Breakthrough capabilities with predictive optimization\n- **Innovation Ecosystem:** Established with next-generation technology integration\n- **Global Impact:** Advanced wisdom distribution systems operational\n\n### Analysis Components Generated\n"
    ++ String.join (analyses.map fun kv => "- " ++ pyTitle kv.1 ++ " Analysis âœ…\n") ++
    "\n### Revolutionary Next Steps\nBased on the breakthrough AI analysis, RegimA should focus on:\n\n1. **Quantum-Level Actions**: Pioneer next-generation Zone Concept applications with molecular-level personalization\n2. **Transcendent Development**: Advance consciousness evolution toward global collective intelligence leadership\n3. **Revolutionary Innovation**: Establish breakthrough research ecosystems for continuous advancement\n4. **Global Leadership**: Deploy worldwide wisdom distribution systems and industry transformation initiatives\n\n### Breakthrough Capabilities Achieved\n- AI-Enhanced predictive personalization protocols operational\n- Collective intelligence networks established and growing\n- Innovation ecosystem with continuous breakthrough research active\n- Global impact orientation with advanced technology deployment successful\n\n### Files Generated\n- Individual revolutionary analysis files for each breakthrough component\n- Comprehensive JSON output with advanced analytics for programmatic access\n- This enhanced summary for quantum-level strategic review\n\nFor detailed breakthrough insights, refer to the individual analysis files in the outputs directory.\n")

end RegimAAIProcessor

/-- Content of one written file: markdown text or the consolidated JSON record
(kept structured; `json.dump` serializes it). -/
inductive FileData where
  | text (content : String)
  | json (value : JValue)

namespace RegimAAIProcessor

/-- The per-category file-writing loop of `save_outputs`.  `k` is the index of
the next `datetime.now()` call; each file's header takes a fresh reading. -/
def mdFileWrites (self : RegimAAIProcessor) (timestamp : String)
    (clock : Nat → PyDateTime) : List (String × String) → Nat → List (String × FileData)
  | [], _ => []
  | (analysis_type, content) :: rest, k =>
    ("regima_" ++ analysis_type ++ "_analysis_" ++ timestamp ++ ".md",
      FileData.text ("# RegimA " ++ pyTitle analysis_type ++ " Analysis\n" ++
        "Generated: " ++ (clock k).isoformat ++ "\n" ++
        "Analysis Type: " ++ self.analysis_type ++ "\n\n" ++ content)) ::
      mdFileWrites self timestamp clock rest (k + 1)

/-- `save_outputs`: capture `timestamp` once (clock call 0); write one
markdown file per report entry (clock calls 1..n for their `Generated:`
lines), then the fixed-name summary (clock call n+1 inside
`_create_summary`), then the consolidated JSON record (clock call n+2 for its
`timestamp` field).  Returns the writes in order. -/
def save_outputs (self : RegimAAIProcessor) (analyses : List (String × String))
    (clock : Nat → PyDateTime) : Except String (List (String × FileData)) := do
  let timestamp := (clock 0).strftimeTS
  let mdFiles := self.mdFileWrites timestamp clock analyses 1
  let summary_content ← self._create_summary analyses (clock (1 + analyses.length))
  let consciousness_state ← pyGet self.regcyc_data "organizationalConsciousness" (.obj [])
  let cycle_status ← pyGet self.regcyc_data "cycleCompletion" (.obj [])
  let zone_framework ← pyGet self.regcyc_data "zoneConceptFramework" (.obj [])
  let json_output : JValue := .obj
    [("timestamp", .str (clock (2 + analyses.length)).isoformat),
     ("analysis_type", .str self.analysis_type),
     ("organizational_data", .obj
       [("consciousness_state", consciousness_state),
        ("cycle_status", cycle_status),
        ("zone_framework", zone_framework)]),
     ("ai_analyses", .obj (analyses.map fun kv => (kv.1, JValue.str kv.2)))]
  pure (mdFiles ++
    [("ai_insights_summary.md", FileData.text summary_content)] ++
    [("regima_ai_analysis_" ++ timestamp ++ ".json", FileData.json json_output)])

/-- `run`: generate the analyses, then save the outputs.  (In the script an
`Except.error` outcome is caught at top level, logged, and turns into
`sys.exit(1)`.) -/
def run (self : RegimAAIProcessor) (clock : Nat → PyDateTime) :
    Except String (List (String × FileData)) := do
  let analyses ← self.generate_analysis
  self.save_outputs analyses clock

end RegimAAIProcessor

end RegimA

namespace RegimA

/-- Fields of one clock reading at second granularity. -/
def PyDateTime.secondTuple (d : PyDateTime) : Nat × Nat × Nat × Nat × Nat × Nat :=
  (d.year, d.month, d.day, d.hour, d.minute, d.second)

/-- Field bounds under which the `%Y%m%d_%H%M%S` rendering is faithful
(they hold for every real clock reading). -/
def PyDateTime.SecondBounded (d : PyDateTime) : Prop :=
  d.year < 10000 ∧ d.month < 100 ∧ d.day < 100 ∧
    d.hour < 100 ∧ d.minute < 100 ∧ d.second < 100

/-- Fixture: empty primary document, empty completion document, mode `full`. -/
def procFull : RegimAAIProcessor := ⟨.obj [], .obj [], "full"⟩

/-- Fixture for the spec's concrete scenario: primary document
`regcyc = obj [organizationalConsciousness := obj [currentState := "Active"]]`,
mode `consciousness_only`. -/
def procScenario : RegimAAIProcessor :=
  ⟨.obj [("organizationalConsciousness", .obj [("currentState", .str "Active")])],
    .obj [], "consciousness_only"⟩

/-- A clock whose k-th reading is k seconds past 2025-01-01 00:00:00; distinct
`datetime.now()` calls of one run therefore return distinct instants. -/
def clockAdv : Nat → PyDateTime := fun k => ⟨2025, 1, 1, 0, 0, k, 0⟩

/-- A clock starting one second later than `clockAdv`. -/
def clockAdv1 : Nat → PyDateTime := fun k => ⟨2025, 1, 1, 0, 0, k + 1, 0⟩

/-- The context block rendered from the fully empty configuration. -/
def emptyContext : String :=
  "\n# RegimA Organizational Learning Cycle Context\n\n## Current Organizational State\n- **Consciousness Level**: N/A\n- **Evolution Level**: N/A\n- **Cycle Status**: N/A\n\n## Zone Concept Framework\n### Core Elements:\n\n## Professional Guidance Focus Areas:\n\n## Current Cycle Insights:\n"

/-- The write list of a successful run (empty on failure). -/
def writesOf (x : Except String (List (String × FileData))) : List (String × FileData) :=
  match x with
  | .ok ws => ws
  | .error _ => []

/-- The text written under a given filename. -/
def writtenText : List (String × FileData) → String → Option String
  | [], _ => none
  | (n, FileData.text s) :: rest, name =>
    if n = name then some s else writtenText rest name
  | (_, FileData.json _) :: rest, name => writtenText rest name

/-- A top-level field of the consolidated JSON snapshot (the final write). -/
def jsonField (ws : List (String × FileData)) (key : String) : Option JValue :=
  match ws.getLast? with
  | some (_, FileData.json (.obj entries)) => assocLookup entries key
  | _ => none

/-- The string value of the snapshot's `timestamp` field. -/
def jsonTimestampString (ws : List (String × FileData)) : Option String :=
  match jsonField ws "timestamp" with
  | some (.str s) => some s
  | _ => none

/-- The key list of the snapshot's `ai_analyses` object. -/
def jsonAnalysesKeys (ws : List (String × FileData)) : Option (List String) :=
  match jsonField ws "ai_analyses" with
  | some (.obj entries) => some (entries.map Prod.fst)
  | _ => none

end RegimA

namespace RegimA

theorem ok_bind {α β : Type} (a : α) (f : α → Except String β) :
    (Except.ok a >>= f) = f a := rfl

theorem error_bind {α β : Type} (e : String) (f : α → Except String β) :
    ((Except.error e : Except String α) >>= f) = Except.error e := rfl

theorem pure_eq_ok {α : Type} (a : α) : (pure a : Except String α) = Except.ok a := rfl

theorem bind_eq_ok {α β : Type} {x : Except String α} {f : α → Except String β} {b : β}
    (h : (x >>= f) = .ok b) : ∃ a, x = .ok a ∧ f a = .ok b := by
  cases x with
  | ok a => exact ⟨a, rfl, h⟩
  | error e => exact absurd h (by simp [error_bind])

namespace RegimAAIProcessor

theorem mock_ok (self : RegimAAIProcessor) (prompt : String) (c : String)
    (h : self._generate_prompt_context = .ok c) :
    self._generate_mock_ai_response prompt =
      .ok (if pyIn "zone concept" (pyLower prompt) then self._generate_zone_concept_response
        else if pyIn "consciousness" (pyLower prompt) then self._generate_consciousness_response
        else if pyIn "guidance" (pyLower prompt) then self._generate_guidance_response
        else self._generate_comprehensive_response) := by
  unfold _generate_mock_ai_response
  rw [h, ok_bind]
  split <;> [rfl; split <;> [rfl; split <;> rfl]]

theorem context_split (self : RegimAAIProcessor) (c : String)
    (h : self._generate_prompt_context = .ok c) :
    ∃ pre post : String,
      c = pre ++ ("\n\n## Zone Concept Framework\n### Core Elements:\n" ++ post) := by
  unfold _generate_prompt_context at h
  obtain ⟨oc1, h1, h⟩ := bind_eq_ok h
  obtain ⟨cl, h2, h⟩ := bind_eq_ok h
  obtain ⟨oc2, h3, h⟩ := bind_eq_ok h
  obtain ⟨el, h4, h⟩ := bind_eq_ok h
  obtain ⟨cc1, h5, h⟩ := bind_eq_ok h
  obtain ⟨cs, h6, h⟩ := bind_eq_ok h
  obtain ⟨zcf, h7, h⟩ := bind_eq_ok h
  obtain ⟨core, h8, h⟩ := bind_eq_ok h
  obtain ⟨items, h9, h⟩ := bind_eq_ok h
  obtain ⟨blocks, h10, h⟩ := bind_eq_ok h
  obtain ⟨pg, h11, h⟩ := bind_eq_ok h
  obtain ⟨fav, h12, h⟩ := bind_eq_ok h
  obtain ⟨fas, h13, h⟩ := bind_eq_ok h
  obtain ⟨cc2, h14, h⟩ := bind_eq_ok h
  obtain ⟨insv, h15, h⟩ := bind_eq_ok h
  obtain ⟨ins, h16, h⟩ := bind_eq_ok h
  rw [pure_eq_ok] at h
  injection h with h
  refine ⟨"\n# RegimA Organizational Learning Cycle Context\n\n## Current Organizational State\n- **Consciousness Level**: "
      ++ pyStr cl ++ "\n- **Evolution Level**: " ++ pyStr el ++ "\n- **Cycle Status**: " ++ pyStr cs,
    blocks ++ ("\n## Professional Guidance Focus Areas:\n" ++
      String.join (fas.map fun a => "- " ++ pyStr a ++ "\n") ++
      "\n## Current Cycle Insights:\n" ++
      String.join (ins.map fun i => "- " ++ pyStr i ++ "\n")), ?_⟩
  rw [← h]
  simp [String.append_assoc]

end RegimAAIProcessor

end RegimA

namespace RegimA

theorem infix_ext_left {α : Type} {p m : List α} (l : List α) (h : p <:+: m) :
    p <:+: l ++ m := by
  obtain ⟨s, t, rfl⟩ := h
  exact ⟨l ++ s, t, by simp⟩

theorem infix_ext_right {α : Type} {p m : List α} (r : List α) (h : p <:+: m) :
    p <:+: m ++ r := by
  obtain ⟨s, t, rfl⟩ := h
  exact ⟨s, t ++ r, by simp⟩

namespace RegimAAIProcessor

theorem context_zone_header (self : RegimAAIProcessor) (c : String)
    (h : self._generate_prompt_context = .ok c) :
    "Zone Concept Framework".data <:+: c.data := by
  obtain ⟨pre, post, rfl⟩ := context_split self c h
  have h1 : "Zone Concept Framework".data <:+:
      ("\n\n## Zone Concept Framework\n### Core Elements:\n" : String).data := by decide
  have h2 : ("\n\n## Zone Concept Framework\n### Core Elements:\n" : String).data <:+:
      (pre ++ ("\n\n## Zone Concept Framework\n### Core Elements:\n" ++ post)).data := by
    simp only [String.data_append]
    exact infix_ext_left _ (infix_ext_right _ (List.infix_refl _))
  exact h1.trans h2

theorem prompt_forces_zone (self : RegimAAIProcessor) (c instr : String)
    (h : self._generate_prompt_context = .ok c) :
    pyIn "zone concept" (pyLower (instr ++ c)) = true := by
  obtain ⟨pre, post, rfl⟩ := context_split self c h
  rw [pyIn, decide_eq_true_eq]
  show "zone concept".data <:+:
    ((instr ++ (pre ++ ("\n\n## Zone Concept Framework\n### Core Elements:\n" ++ post))).data.map Char.toLower)
  simp only [String.data_append, List.map_append]
  have h1 : "zone concept".data <:+:
      (("\n\n## Zone Concept Framework\n### Core Elements:\n" : String).data.map Char.toLower) := by decide
  exact infix_ext_left _ (infix_ext_left _ (infix_ext_right _ h1))

theorem mock_on_context_prompt (self : RegimAAIProcessor) (instr c : String)
    (h : self._generate_prompt_context = .ok c) :
    self._generate_mock_ai_response (instr ++ c) = .ok self._generate_zone_concept_response := by
  rw [mock_ok self (instr ++ c) c h, prompt_forces_zone self c instr h]
  simp

theorem generate_analysis_eq (self : RegimAAIProcessor) (c : String)
    (h : self._generate_prompt_context = .ok c) :
    self.generate_analysis = .ok (
      (if self.analysis_type = "full" ∨ self.analysis_type = "zone_concept_only"
        then [("zone_concept", self._generate_zone_concept_response)] else []) ++
      (if self.analysis_type = "full" ∨ self.analysis_type = "consciousness_only"
        then [("consciousness", self._generate_zone_concept_response)] else []) ++
      (if self.analysis_type = "full" ∨ self.analysis_type = "guidance_only"
        then [("guidance", self._generate_zone_concept_response)] else []) ++
      (if self.analysis_type = "full"
        then [("comprehensive", self._generate_zone_concept_response)] else [])) := by
  have hm1 := mock_on_context_prompt self
    "Analyze the Zone Concept framework and provide strategic recommendations. Context: " c h
  have hm2 := mock_on_context_prompt self
    "Analyze the organizational consciousness evolution and provide development insights. Context: " c h
  have hm3 := mock_on_context_prompt self
    "Analyze the professional guidance framework and provide enhancement recommendations. Context: " c h
  have hm4 := mock_on_context_prompt self
    "Provide a comprehensive analysis of the RegimA organizational learning cycle. Context: " c h
  unfold generate_analysis
  split <;> split <;> split <;> split <;>
    simp [h, ok_bind, hm1, hm2, hm3, hm4, pure_eq_ok]

end RegimAAIProcessor

end RegimA

namespace RegimA

namespace RegimAAIProcessor

theorem generate_analysis_unknown_mode (self : RegimAAIProcessor)
    (h1 : self.analysis_type ≠ "full") (h2 : self.analysis_type ≠ "zone_concept_only")
    (h3 : self.analysis_type ≠ "consciousness_only") (h4 : self.analysis_type ≠ "guidance_only") :
    self.generate_analysis = .ok [] := by
  unfold generate_analysis
  simp [h1, h2, h3, h4, ok_bind, pure_eq_ok]

theorem generate_analysis_ctx_error (self : RegimAAIProcessor) (e : String)
    (h : self._generate_prompt_context = .error e) :
    self.generate_analysis = .error e ∨ self.generate_analysis = .ok [] := by
  by_cases h1 : self.analysis_type = "full" <;>
    by_cases h2 : self.analysis_type = "zone_concept_only" <;>
    by_cases h3 : self.analysis_type = "consciousness_only" <;>
    by_cases h4 : self.analysis_type = "guidance_only" <;>
    unfold generate_analysis <;>
    simp [h, h1, h2, h3, h4, ok_bind, error_bind, pure_eq_ok]

theorem mdFileWrites_names (self : RegimAAIProcessor) (ts : String)
    (clock : Nat → PyDateTime) : ∀ (l : List (String × String)) (k : Nat),
    (self.mdFileWrites ts clock l k).map Prod.fst =
      l.map fun kv => "regima_" ++ kv.1 ++ "_analysis_" ++ ts ++ ".md" := by
  intro l
  induction l with
  | nil => intro k; rfl
  | cons hd tl ih =>
    intro k
    cases hd with
    | mk a b => simp [mdFileWrites, ih]

theorem save_outputs_ok_shape (self : RegimAAIProcessor)
    (analyses : List (String × String)) (clock : Nat → PyDateTime)
    (ws : List (String × FileData))
    (h : self.save_outputs analyses clock = .ok ws) :
    ∃ summary oc cc zf,
      self._create_summary analyses (clock (1 + analyses.length)) = .ok summary ∧
      pyGet self.regcyc_data "organizationalConsciousness" (.obj []) = .ok oc ∧
      pyGet self.regcyc_data "cycleCompletion" (.obj []) = .ok cc ∧
      pyGet self.regcyc_data "zoneConceptFramework" (.obj []) = .ok zf ∧
      ws = self.mdFileWrites (clock 0).strftimeTS clock analyses 1 ++
        [("ai_insights_summary.md", FileData.text summary)] ++
        [("regima_ai_analysis_" ++ (clock 0).strftimeTS ++ ".json",
          FileData.json (.obj
            [("timestamp", .str (clock (2 + analyses.length)).isoformat),
             ("analysis_type", .str self.analysis_type),
             ("organizational_data", .obj
               [("consciousness_state", oc),
                ("cycle_status", cc),
                ("zone_framework", zf)]),
             ("ai_analyses", .obj (analyses.map fun kv => (kv.1, JValue.str kv.2)))]))] := by
  unfold save_outputs at h
  obtain ⟨summary, hs, h⟩ := bind_eq_ok h
  obtain ⟨oc, ho, h⟩ := bind_eq_ok h
  obtain ⟨cc, hc, h⟩ := bind_eq_ok h
  obtain ⟨zf, hz, h⟩ := bind_eq_ok h
  rw [pure_eq_ok] at h
  injection h with h
  exact ⟨summary, oc, cc, zf, hs, ho, hc, hz, h.symm⟩

theorem save_outputs_names (self : RegimAAIProcessor)
    (analyses : List (String × String)) (clock : Nat → PyDateTime)
    (ws : List (String × FileData))
    (h : self.save_outputs analyses clock = .ok ws) :
    ws.map Prod.fst =
      (analyses.map fun kv =>
        "regima_" ++ kv.1 ++ "_analysis_" ++ (clock 0).strftimeTS ++ ".md") ++
      ["ai_insights_summary.md",
       "regima_ai_analysis_" ++ (clock 0).strftimeTS ++ ".json"] := by
  obtain ⟨summary, oc, cc, zf, _, _, _, _, rfl⟩ := save_outputs_ok_shape self analyses clock ws h
  simp [mdFileWrites_names]

end RegimAAIProcessor

end RegimA

namespace RegimA

theorem strData_inj {s t : String} (h : s.data = t.data) : s = t := by
  cases s; cases t; exact congrArg String.mk h

theorem digitChar_inj {a b : Nat} (ha : a < 10) (hb : b < 10)
    (h : digitChar a = digitChar b) : a = b := by
  interval_cases a <;> interval_cases b <;> first | rfl | exact absurd h (by decide)

theorem pad2_data (n : Nat) : (pad2 n).data = [digitChar (n / 10), digitChar (n % 10)] := rfl

theorem pad2_data_length (n : Nat) : (pad2 n).data.length = 2 := rfl

theorem pad4_data_length (n : Nat) : (pad4 n).data.length = 4 := rfl

theorem pad2_inj {a b : Nat} (ha : a < 100) (hb : b < 100) (h : pad2 a = pad2 b) : a = b := by
  have h' := congrArg String.data h
  rw [pad2_data, pad2_data] at h'
  have d1 : digitChar (a / 10) = digitChar (b / 10) := by
    injection h'
  have d2 : digitChar (a % 10) = digitChar (b % 10) := by
    injection h' with h1 h2
    injection h2
  have e1 := digitChar_inj (by omega) (by omega) d1
  have e2 := digitChar_inj (by omega) (by omega) d2
  omega

theorem pad4_inj {a b : Nat} (ha : a < 10000) (hb : b < 10000) (h : pad4 a = pad4 b) : a = b := by
  have h' := congrArg String.data h
  simp only [pad4, String.data_append] at h'
  have s := List.append_inj h' rfl
  have e1 := pad2_inj (a := a / 100) (b := b / 100) (by omega) (by omega) (strData_inj s.1)
  have e2 := pad2_inj (a := a % 100) (b := b % 100) (by omega) (by omega) (strData_inj s.2)
  omega

theorem strftimeTS_data_length (d : PyDateTime) : (d.strftimeTS).data.length = 15 := rfl

theorem strftimeTS_inj {d1 d2 : PyDateTime}
    (hb1 : d1.SecondBounded) (hb2 : d2.SecondBounded)
    (h : d1.strftimeTS = d2.strftimeTS) : d1.secondTuple = d2.secondTuple := by
  obtain ⟨hy1, hmo1, hd1, hh1, hmi1, hs1⟩ := hb1
  obtain ⟨hy2, hmo2, hd2, hh2, hmi2, hs2⟩ := hb2
  have h' := congrArg String.data h
  simp only [PyDateTime.strftimeTS, String.data_append] at h'
  obtain ⟨h', hsec⟩ := List.append_inj' h' rfl
  obtain ⟨h', hmin⟩ := List.append_inj' h' rfl
  obtain ⟨h', hhour⟩ := List.append_inj' h' rfl
  obtain ⟨h', _⟩ := List.append_inj' h' rfl
  obtain ⟨h', hday⟩ := List.append_inj' h' rfl
  obtain ⟨hyear, hmon⟩ := List.append_inj' h' rfl
  have e1 := pad4_inj hy1 hy2 (strData_inj hyear)
  have e2 := pad2_inj hmo1 hmo2 (strData_inj hmon)
  have e3 := pad2_inj hd1 hd2 (strData_inj hday)
  have e4 := pad2_inj hh1 hh2 (strData_inj hhour)
  have e5 := pad2_inj hmi1 hmi2 (strData_inj hmin)
  have e6 := pad2_inj hs1 hs2 (strData_inj hsec)
  simp [PyDateTime.secondTuple, e1, e2, e3, e4, e5, e6]

end RegimA

namespace RegimA

theorem getLast?_append_right {α : Type} (l : List α) {m : List α} {a : α}
    (h : m.getLast? = some a) : (l ++ m).getLast? = some a := by
  simp [List.getLast?_append, h]

theorem mdName_ts_eq {c1 c2 t1 t2 : String}
    (h1 : t1.data.length = 15) (h2 : t2.data.length = 15)
    (h : "regima_" ++ c1 ++ "_analysis_" ++ t1 ++ ".md" =
      "regima_" ++ c2 ++ "_analysis_" ++ t2 ++ ".md") : t1 = t2 := by
  have h' := congrArg String.data h
  simp only [String.data_append] at h'
  obtain ⟨h', _⟩ := List.append_inj' h' rfl
  obtain ⟨_, e⟩ := List.append_inj' h' (by rw [h1, h2])
  exact strData_inj e

theorem mdName_ne_jsonName (c t1 t2 : String) :
    "regima_" ++ c ++ "_analysis_" ++ t1 ++ ".md" ≠
      "regima_ai_analysis_" ++ t2 ++ ".json" := by
  intro h
  have h' := congrArg (fun s => s.data.getLast?) h
  simp only [String.data_append] at h'
  rw [getLast?_append_right _ (by rfl : (".md" : String).data.getLast? = some 'd'),
    getLast?_append_right _ (by rfl : (".json" : String).data.getLast? = some 'n')] at h'
  exact absurd h' (by decide)

theorem mdName_ne_summary (c t : String) (ht : t.data.length = 15) :
    "regima_" ++ c ++ "_analysis_" ++ t ++ ".md" ≠ "ai_insights_summary.md" := by
  intro h
  have h' := congrArg (fun s => s.data.length) h
  simp only [String.data_append, List.length_append, ht, List.length_cons, List.length_nil] at h'
  omega

theorem jsonName_ts_eq {t1 t2 : String}
    (h : "regima_ai_analysis_" ++ t1 ++ ".json" =
      "regima_ai_analysis_" ++ t2 ++ ".json") : t1 = t2 := by
  have h' := congrArg String.data h
  simp only [String.data_append] at h'
  obtain ⟨h', _⟩ := List.append_inj' h' rfl
  obtain ⟨_, e⟩ := List.append_inj h' rfl
  exact strData_inj e

theorem jsonName_ne_summary (t : String) (ht : t.data.length = 15) :
    "regima_ai_analysis_" ++ t ++ ".json" ≠ "ai_insights_summary.md" := by
  intro h
  have h' := congrArg (fun s => s.data.length) h
  simp only [String.data_append, List.length_append, ht, List.length_cons, List.length_nil] at h'
  omega

end RegimA

namespace RegimA

namespace RegimAAIProcessor

theorem run_names_cases (self : RegimAAIProcessor)
    (analyses : List (String × String)) (clock : Nat → PyDateTime)
    (ws : List (String × FileData)) (n : String)
    (h : self.save_outputs analyses clock = .ok ws)
    (hn : n ∈ ws.map Prod.fst) :
    (∃ kv ∈ analyses, n = "regima_" ++ kv.1 ++ "_analysis_" ++ (clock 0).strftimeTS ++ ".md") ∨
    n = "ai_insights_summary.md" ∨
    n = "regima_ai_analysis_" ++ (clock 0).strftimeTS ++ ".json" := by
  rw [save_outputs_names self analyses clock ws h] at hn
  simp only [List.mem_append, List.mem_map, List.mem_cons, List.mem_singleton] at hn
  rcases hn with ⟨kv, hkv, rfl⟩ | hs | hj | hfalse
  · exact Or.inl ⟨kv, hkv, rfl⟩
  · exact Or.inr (Or.inl hs)
  · exact Or.inr (Or.inr hj)
  · exact absurd hfalse (by simp)

end RegimAAIProcessor

end RegimA

namespace RegimA

namespace RegimAAIProcessor

/-- C7: every successful save writes, in order, one markdown file per
report-map entry named `regima_<category>_analysis_<timestamp>.md` (all
sharing the run's captured `YYYYMMDD_HHMMSS` token), the summary at the fixed
name `ai_insights_summary.md` (written unconditionally every run), and one
`regima_ai_analysis_<timestamp>.json`; and two runs whose captured clock
readings differ at second granularity produce disjoint per-category and JSON
filename sets, sharing only the summary filename. -/
theorem run_filename_disjointness
    (self₁ self₂ : RegimAAIProcessor)
    (analyses₁ analyses₂ : List (String × String))
    (clock₁ clock₂ : Nat → PyDateTime)
    (ws₁ ws₂ : List (String × FileData))
    (h₁ : self₁.save_outputs analyses₁ clock₁ = .ok ws₁)
    (h₂ : self₂.save_outputs analyses₂ clock₂ = .ok ws₂)
    (hb₁ : (clock₁ 0).SecondBounded) (hb₂ : (clock₂ 0).SecondBounded)
    (hsec : (clock₁ 0).secondTuple ≠ (clock₂ 0).secondTuple) :
    ws₁.map Prod.fst =
      (analyses₁.map fun kv =>
        "regima_" ++ kv.1 ++ "_analysis_" ++ (clock₁ 0).strftimeTS ++ ".md") ++
      ["ai_insights_summary.md",
       "regima_ai_analysis_" ++ (clock₁ 0).strftimeTS ++ ".json"] ∧
    "ai_insights_summary.md" ∈ ws₁.map Prod.fst ∧
    "ai_insights_summary.md" ∈ ws₂.map Prod.fst ∧
    ∀ n, n ∈ ws₁.map Prod.fst → n ∈ ws₂.map Prod.fst →
      n = "ai_insights_summary.md" := by
  have hts : (clock₁ 0).strftimeTS ≠ (clock₂ 0).strftimeTS := by
    intro e
    exact hsec (strftimeTS_inj hb₁ hb₂ e)
  refine ⟨save_outputs_names self₁ analyses₁ clock₁ ws₁ h₁, ?_, ?_, ?_⟩
  · rw [save_outputs_names self₁ analyses₁ clock₁ ws₁ h₁]; simp
  · rw [save_outputs_names self₂ analyses₂ clock₂ ws₂ h₂]; simp
  · intro n hn₁ hn₂
    rcases run_names_cases self₁ analyses₁ clock₁ ws₁ n h₁ hn₁ with
      ⟨kv₁, _, rfl⟩ | rfl | rfl
    · rcases run_names_cases self₂ analyses₂ clock₂ ws₂ _ h₂ hn₂ with
        ⟨kv₂, _, he⟩ | he | he
      · exact absurd (strftimeTS_inj hb₁ hb₂
          (mdName_ts_eq (strftimeTS_data_length _) (strftimeTS_data_length _) he)) hsec
      · exact absurd he (mdName_ne_summary _ _ (strftimeTS_data_length _))
      · exact absurd he (mdName_ne_jsonName _ _ _)
    · rfl
    · rcases run_names_cases self₂ analyses₂ clock₂ ws₂ _ h₂ hn₂ with
        ⟨kv₂, _, he⟩ | he | he
      · exact absurd he.symm (mdName_ne_jsonName _ _ _)
      · exact absurd he (jsonName_ne_summary _ (strftimeTS_data_length _))
      · exact absurd (strftimeTS_inj hb₁ hb₂ (jsonName_ts_eq he)) hsec

end RegimAAIProcessor

end RegimA

namespace RegimA

open RegimAAIProcessor

/-- C5: `_load_json_file` never propagates a failure to its caller: whenever
the underlying read-and-parse step fails (missing file and malformed content
alike), it logs one record at error severity and returns the empty mapping,
so downstream logic proceeds with all-default values. -/
theorem config_loader_fail_soft :
    (∀ (r : FileReadResult) (e : String), readAndParse r = .error e →
      _load_json_file r = (.obj [], [LogLevel.error])) ∧
    _load_json_file .missing = (.obj [], [LogLevel.error]) ∧
    _load_json_file .malformed = (.obj [], [LogLevel.error]) := by
  refine ⟨?_, rfl, rfl⟩
  intro r e h
  unfold _load_json_file
  rw [h]

/-- Witness for C5 at the concrete missing-file input. -/
theorem config_loader_fail_soft_witness :
    readAndParse .missing = .error "FileNotFoundError" ∧
    _load_json_file .missing = (.obj [], [LogLevel.error]) :=
  ⟨rfl, config_loader_fail_soft.1 .missing "FileNotFoundError" rfl⟩

set_option maxRecDepth 100000 in
/-- C6: the context builder applied to the fully empty configuration mapping
(for any completion document and any mode) renders the three headline fields
with the `"N/A"` placeholder, and renders the focus-areas and insights
sections present but empty: both headers appear, with no bullet items, the
insights header being the final line of the block. -/
theorem context_empty_config_placeholders (completion : JValue) (mode : String) :
    RegimAAIProcessor._generate_prompt_context ⟨.obj [], completion, mode⟩ =
      .ok emptyContext ∧
    pyIn "- **Consciousness Level**: N/A\n" emptyContext = true ∧
    pyIn "- **Evolution Level**: N/A\n" emptyContext = true ∧
    pyIn "- **Cycle Status**: N/A\n" emptyContext = true ∧
    pyIn "\n## Professional Guidance Focus Areas:\n\n## Current Cycle Insights:\n"
      emptyContext = true ∧
    "\n## Current Cycle Insights:\n".data <:+ emptyContext.data :=
  ⟨by rfl, by decide, by decide, by decide, by decide, by decide⟩

/-- C9: the completion configuration document is not substantively consumed:
with the primary document read result, the mode selector, and the clock held
fixed, any two completion-document read results (any parsed content, missing,
or malformed) produce identical run output — the report map, every
per-category file content, the summary content, and the JSON snapshot. -/
theorem ctx_ignores_completion (a b b' : JValue) (c : String) :
    RegimAAIProcessor._generate_prompt_context ⟨a, b, c⟩ =
      RegimAAIProcessor._generate_prompt_context ⟨a, b', c⟩ := rfl

theorem mock_ignores_completion (a b b' : JValue) (c : String) (prompt : String) :
    RegimAAIProcessor._generate_mock_ai_response ⟨a, b, c⟩ prompt =
      RegimAAIProcessor._generate_mock_ai_response ⟨a, b', c⟩ prompt := rfl

theorem gen_ignores_completion (a b b' : JValue) (c : String) :
    RegimAAIProcessor.generate_analysis ⟨a, b, c⟩ =
      RegimAAIProcessor.generate_analysis ⟨a, b', c⟩ := rfl

theorem summary_ignores_completion (a b b' : JValue) (c : String)
    (analyses : List (String × String)) (now : PyDateTime) :
    RegimAAIProcessor._create_summary ⟨a, b, c⟩ analyses now =
      RegimAAIProcessor._create_summary ⟨a, b', c⟩ analyses now := rfl

theorem mdw_ignores_completion (a b b' : JValue) (c : String) (ts : String)
    (clock : Nat → PyDateTime) :
    ∀ (l : List (String × String)) (k : Nat),
    RegimAAIProcessor.mdFileWrites ⟨a, b, c⟩ ts clock l k =
      RegimAAIProcessor.mdFileWrites ⟨a, b', c⟩ ts clock l k := by
  intro l
  induction l with
  | nil => intro k; rfl
  | cons hd tl ih =>
    intro k
    cases hd
    simp only [RegimAAIProcessor.mdFileWrites, ih]

theorem save_ignores_completion (a b b' : JValue) (c : String)
    (analyses : List (String × String)) (clock : Nat → PyDateTime) :
    RegimAAIProcessor.save_outputs ⟨a, b, c⟩ analyses clock =
      RegimAAIProcessor.save_outputs ⟨a, b', c⟩ analyses clock := by
  unfold RegimAAIProcessor.save_outputs
  simp only [mdw_ignores_completion a b b' c, summary_ignores_completion a b b' c]

theorem run_ignores_completion_field (a : JValue) (b b' : JValue) (c : String)
    (clock : Nat → PyDateTime) :
    RegimAAIProcessor.run ⟨a, b, c⟩ clock = RegimAAIProcessor.run ⟨a, b', c⟩ clock := by
  unfold RegimAAIProcessor.run
  rw [gen_ignores_completion a b b' c]
  simp only [save_ignores_completion a b b' c]

theorem completion_document_no_influence
    (regcycFile completionFile1 completionFile2 : FileReadResult)
    (env : Option String) (clock : Nat → PyDateTime) :
    (mkFromEnv regcycFile completionFile1 env).run clock =
      (mkFromEnv regcycFile completionFile2 env).run clock :=
  run_ignores_completion_field ((_load_json_file regcycFile).1)
    ((_load_json_file completionFile1).1) ((_load_json_file completionFile2).1)
    (env.getD "full") clock

end RegimA

namespace RegimA

open RegimAAIProcessor

/-- C3: classification of a prompt (inside `_generate_mock_ai_response`, given
that the context regeneration it performs first succeeds) is an ordered,
first-match-wins, case-insensitive substring test: any prompt containing
"zone concept" case-insensitively yields the zone_concept template regardless
of other keywords; otherwise "consciousness" yields the consciousness
template; otherwise "guidance" the guidance template; otherwise the
comprehensive template — so classification is total and never fails. -/
theorem classification_first_match_total (self : RegimAAIProcessor)
    (prompt c : String) (h : self._generate_prompt_context = .ok c) :
    (pyIn "zone concept" (pyLower prompt) = true →
      self._generate_mock_ai_response prompt =
        .ok self._generate_zone_concept_response) ∧
    (pyIn "zone concept" (pyLower prompt) = false →
      pyIn "consciousness" (pyLower prompt) = true →
      self._generate_mock_ai_response prompt =
        .ok self._generate_consciousness_response) ∧
    (pyIn "zone concept" (pyLower prompt) = false →
      pyIn "consciousness" (pyLower prompt) = false →
      pyIn "guidance" (pyLower prompt) = true →
      self._generate_mock_ai_response prompt =
        .ok self._generate_guidance_response) ∧
    (pyIn "zone concept" (pyLower prompt) = false →
      pyIn "consciousness" (pyLower prompt) = false →
      pyIn "guidance" (pyLower prompt) = false →
      self._generate_mock_ai_response prompt =
        .ok self._generate_comprehensive_response) ∧
    ∃ r, self._generate_mock_ai_response prompt = .ok r := by
  rw [mock_ok self prompt c h]
  refine ⟨fun h1 => by simp [h1], fun h1 h2 => by simp [h1, h2],
    fun h1 h2 h3 => by simp [h1, h2, h3], fun h1 h2 h3 => by simp [h1, h2, h3], ⟨_, rfl⟩⟩

set_option maxRecDepth 100000 in
/-- Witness for C3: a prompt containing both "Zone Concept" and
"consciousness" substrings classifies as zone_concept. -/
theorem classification_first_match_total_witness :
    procFull._generate_mock_ai_response
      "Discuss the Zone Concept framework and the consciousness evolution." =
      .ok procFull._generate_zone_concept_response := by
  have h := classification_first_match_total procFull
    "Discuss the Zone Concept framework and the consciousness evolution."
    emptyContext (by rfl)
  exact h.1 (by decide)

/-- C2: `generate_analysis` returns, for mode `full`, a map whose key list is
exactly zone_concept, consciousness, guidance, comprehensive; for each
`*_only` mode exactly the one corresponding key; and for any other mode
string the empty map, as a silent `.ok` result, not an error.  (The non-empty
modes are stated under the hypothesis that context construction succeeds;
when it fails the run aborts instead.) -/
theorem assemble_mode_key_sets (self : RegimAAIProcessor) :
    (∀ c, self._generate_prompt_context = .ok c →
      (self.analysis_type = "full" →
        ∃ l, self.generate_analysis = .ok l ∧
          l.map Prod.fst = ["zone_concept", "consciousness", "guidance", "comprehensive"]) ∧
      (self.analysis_type = "zone_concept_only" →
        ∃ l, self.generate_analysis = .ok l ∧ l.map Prod.fst = ["zone_concept"]) ∧
      (self.analysis_type = "consciousness_only" →
        ∃ l, self.generate_analysis = .ok l ∧ l.map Prod.fst = ["consciousness"]) ∧
      (self.analysis_type = "guidance_only" →
        ∃ l, self.generate_analysis = .ok l ∧ l.map Prod.fst = ["guidance"])) ∧
    (self.analysis_type ≠ "full" → self.analysis_type ≠ "zone_concept_only" →
      self.analysis_type ≠ "consciousness_only" → self.analysis_type ≠ "guidance_only" →
      self.generate_analysis = .ok []) := by
  constructor
  · intro c h
    refine ⟨fun hm => ?_, fun hm => ?_, fun hm => ?_, fun hm => ?_⟩ <;>
      exact ⟨_, generate_analysis_eq self c h, by simp [hm]⟩
  · intro h1 h2 h3 h4
    exact generate_analysis_unknown_mode self h1 h2 h3 h4

set_option maxRecDepth 100000 in
/-- Witness for C2: the full mode on a concrete processor yields exactly the
four keys, and a bogus mode yields the empty map. -/
theorem assemble_mode_key_sets_witness :
    (∃ l, procFull.generate_analysis = .ok l ∧
      l.map Prod.fst = ["zone_concept", "consciousness", "guidance", "comprehensive"]) ∧
    RegimAAIProcessor.generate_analysis ⟨.obj [], .obj [], "bogus"⟩ = .ok [] := by
  constructor
  · exact ((assemble_mode_key_sets procFull).1 emptyContext (by rfl)).1 rfl
  · exact (assemble_mode_key_sets ⟨.obj [], .obj [], "bogus"⟩).2
      (by decide) (by decide) (by decide) (by decide)

/-- C10: for every configuration and mode, a successfully built context block
contains the literal substring "Zone Concept Framework"; consequently (the
assembler embeds the context into every category's prompt, and routing is
first-match-wins on "zone concept" case-insensitively) every value stored in
a successfully produced report map — under every key — is the fixed
zone_concept template text. -/
theorem context_forces_zone_template (self : RegimAAIProcessor) :
    (∀ c, self._generate_prompt_context = .ok c →
      "Zone Concept Framework".data <:+: c.data) ∧
    (∀ l, self.generate_analysis = .ok l →
      ∀ kv ∈ l, kv.2 = self._generate_zone_concept_response) := by
  refine ⟨fun c h => context_zone_header self c h, fun l hl kv hkv => ?_⟩
  have hone : ∀ (P : Prop) [Decidable P] (k : String) (kv : String × String),
      kv ∈ (if P then [(k, self._generate_zone_concept_response)] else []) →
      kv.2 = self._generate_zone_concept_response := by
    intro P _ k kv hm
    split at hm
    · rw [List.mem_singleton.1 hm]
    · cases hm
  cases hctx : self._generate_prompt_context with
  | ok c =>
    rw [generate_analysis_eq self c hctx] at hl
    injection hl with hl
    subst hl
    rcases List.mem_append.1 hkv with h' | h'
    · rcases List.mem_append.1 h' with h'' | h''
      · rcases List.mem_append.1 h'' with h3 | h3
        · exact hone _ _ _ h3
        · exact hone _ _ _ h3
      · exact hone _ _ _ h''
    · exact hone _ _ _ h'
  | error e =>
    rcases generate_analysis_ctx_error self e hctx with he | he
    · rw [he] at hl; cases hl
    · rw [he] at hl
      injection hl with hl
      subst hl
      cases hkv

set_option maxRecDepth 100000 in
/-- Witness for C10: at a concrete processor the built context contains the
header, and the consciousness entry of the concrete report map carries the
zone_concept template. -/
theorem context_forces_zone_template_witness :
    "Zone Concept Framework".data <:+: emptyContext.data ∧
    ∀ kv ∈ [("consciousness", procScenario._generate_zone_concept_response)],
      (kv : String × String).2 = procScenario._generate_zone_concept_response := by
  constructor
  · exact (context_forces_zone_template procFull).1 emptyContext (by rfl)
  · exact (context_forces_zone_template procScenario).2
      [("consciousness", procScenario._generate_zone_concept_response)] (by rfl)

end RegimA

namespace RegimA

open RegimAAIProcessor

/-- C8: in every successful run, the consolidated JSON snapshot is the final
write, a structured record whose `ai_analyses` field is exactly the report
map `generate_analysis` produced for that run (same keys in the same order,
same string values), alongside the run instant, the mode, and the
consciousness-state, cycle-status, and zone-framework slices of the primary
configuration. -/
theorem json_snapshot_matches_report_map
    (self : RegimAAIProcessor) (analyses : List (String × String))
    (clock : Nat → PyDateTime) (ws : List (String × FileData))
    (hgen : self.generate_analysis = .ok analyses)
    (hrun : self.run clock = .ok ws) :
    ∃ oc cc zf,
      pyGet self.regcyc_data "organizationalConsciousness" (.obj []) = .ok oc ∧
      pyGet self.regcyc_data "cycleCompletion" (.obj []) = .ok cc ∧
      pyGet self.regcyc_data "zoneConceptFramework" (.obj []) = .ok zf ∧
      ws.getLast? = some ("regima_ai_analysis_" ++ (clock 0).strftimeTS ++ ".json",
        FileData.json (.obj
          [("timestamp", .str (clock (2 + analyses.length)).isoformat),
           ("analysis_type", .str self.analysis_type),
           ("organizational_data", .obj
             [("consciousness_state", oc), ("cycle_status", cc), ("zone_framework", zf)]),
           ("ai_analyses", .obj (analyses.map fun kv => (kv.1, JValue.str kv.2)))])) := by
  unfold run at hrun
  rw [hgen, ok_bind] at hrun
  obtain ⟨summary, oc, cc, zf, _, ho, hc, hz, rfl⟩ :=
    save_outputs_ok_shape self analyses clock ws hrun
  exact ⟨oc, cc, zf, ho, hc, hz, List.getLast?_concat _⟩

set_option maxRecDepth 400000 in
/-- Witness for C8 at the spec's concrete scenario and a concrete clock. -/
theorem json_snapshot_matches_report_map_witness :
    ∃ oc cc zf,
      pyGet procScenario.regcyc_data "organizationalConsciousness" (.obj []) = .ok oc ∧
      pyGet procScenario.regcyc_data "cycleCompletion" (.obj []) = .ok cc ∧
      pyGet procScenario.regcyc_data "zoneConceptFramework" (.obj []) = .ok zf ∧
      (writesOf (procScenario.run clockAdv)).getLast? =
        some ("regima_ai_analysis_" ++ (clockAdv 0).strftimeTS ++ ".json",
          FileData.json (.obj
            [("timestamp", .str (clockAdv 3).isoformat),
             ("analysis_type", .str procScenario.analysis_type),
             ("organizational_data", .obj
               [("consciousness_state", oc), ("cycle_status", cc), ("zone_framework", zf)]),
             ("ai_analyses", .obj
               [("consciousness", .str procScenario._generate_zone_concept_response)])])) :=
  json_snapshot_matches_report_map procScenario
    [("consciousness", procScenario._generate_zone_concept_response)] clockAdv
    (writesOf (procScenario.run clockAdv)) (by rfl) (by rfl)

/-- C4 (amended): a single timestamp value is captured once at the start of
output writing (clock call 0) and that value is reused for every output
filename of the run; the embedded "Generated:"/timestamp fields, by contrast,
are taken from fresh `datetime.now()` readings while each artifact is
rendered — shown here for the JSON snapshot's timestamp field, which is clock
call n+2 rather than the captured reading. -/
theorem filename_timestamp_shared
    (self : RegimAAIProcessor) (analyses : List (String × String))
    (clock : Nat → PyDateTime) (ws : List (String × FileData))
    (h : self.save_outputs analyses clock = .ok ws) :
    ws.map Prod.fst =
      (analyses.map fun kv =>
        "regima_" ++ kv.1 ++ "_analysis_" ++ (clock 0).strftimeTS ++ ".md") ++
      ["ai_insights_summary.md",
       "regima_ai_analysis_" ++ (clock 0).strftimeTS ++ ".json"] ∧
    jsonTimestampString ws = some ((clock (2 + analyses.length)).isoformat) := by
  refine ⟨save_outputs_names self analyses clock ws h, ?_⟩
  obtain ⟨summary, oc, cc, zf, _, _, _, _, rfl⟩ :=
    save_outputs_ok_shape self analyses clock ws h
  unfold jsonTimestampString jsonField
  rw [List.getLast?_concat]
  rfl

set_option maxRecDepth 400000 in
/-- Witness for C4's amended statement at a concrete run. -/
theorem filename_timestamp_shared_witness :
    (writesOf (procScenario.run clockAdv)).map Prod.fst =
      ["regima_consciousness_analysis_20250101_000000.md",
       "ai_insights_summary.md",
       "regima_ai_analysis_20250101_000000.json"] ∧
    jsonTimestampString (writesOf (procScenario.run clockAdv)) =
      some "2025-01-01T00:00:03" := by
  have h := filename_timestamp_shared procScenario
    [("consciousness", procScenario._generate_zone_concept_response)] clockAdv
    (writesOf (procScenario.run clockAdv)) (by rfl)
  exact ⟨by rw [h.1]; rfl, by rw [h.2]; rfl⟩

set_option maxRecDepth 400000 in
/-- C4 is false as stated: in a full-mode run under a clock whose successive
readings differ, the JSON snapshot's embedded timestamp field is the fresh
(n+2)-th reading "2025-01-01T00:00:06", not the value captured at the start
of output writing (2025-01-01 00:00:00, rendered "20250101_000000" in every
filename) — so the run's artifacts do not all embed the single captured
timestamp value. -/
theorem run_timestamp_not_single_counterexample :
    (writesOf (procFull.run clockAdv)).map Prod.fst =
      ["regima_zone_concept_analysis_20250101_000000.md",
       "regima_consciousness_analysis_20250101_000000.md",
       "regima_guidance_analysis_20250101_000000.md",
       "regima_comprehensive_analysis_20250101_000000.md",
       "ai_insights_summary.md",
       "regima_ai_analysis_20250101_000000.json"] ∧
    jsonTimestampString (writesOf (procFull.run clockAdv)) =
      some "2025-01-01T00:00:06" ∧
    (clockAdv 0).isoformat = "2025-01-01T00:00:00" ∧
    jsonTimestampString (writesOf (procFull.run clockAdv)) ≠
      some ((clockAdv 0).isoformat) := by
  refine ⟨by rfl, by rfl, by rfl, ?_⟩
  intro hcontra
  rw [(by rfl : jsonTimestampString (writesOf (procFull.run clockAdv)) =
      some "2025-01-01T00:00:06"),
    (by rfl : (clockAdv 0).isoformat = "2025-01-01T00:00:00")] at hcontra
  exact absurd hcontra (by decide)

end RegimA

namespace RegimA

open RegimAAIProcessor

set_option maxRecDepth 400000 in
/-- C1: evaluation at the spec's concrete scenario (primary document
`organizationalConsciousness.currentState = "Active"`, mode
`consciousness_only`).  The report map has exactly the one key
"consciousness" and the summary's consciousness-level field reads "Active"
and the snapshot's `ai_analyses` object has exactly the key "consciousness",
as claimed; but the value stored under "consciousness" is the fixed
zone_concept template text, which differs from the consciousness template
text: the prompt embeds the context block, whose fixed heading contains
"Zone Concept Framework", so the first-match router selects the zone_concept
template. -/
theorem scenario_consciousness_only_eval :
    procScenario.generate_analysis =
      .ok [("consciousness", procScenario._generate_zone_concept_response)] ∧
    procScenario._generate_zone_concept_response ≠
      procScenario._generate_consciousness_response ∧
    pyIn "- **Consciousness Level:** Active\n"
      ((writtenText (writesOf (procScenario.run clockAdv))
        "ai_insights_summary.md").getD "") = true ∧
    jsonAnalysesKeys (writesOf (procScenario.run clockAdv)) =
      some ["consciousness"] := by
  refine ⟨by rfl, by decide, by decide, by rfl⟩

set_option maxRecDepth 400000 in
/-- Witness for C7: two concrete runs one second apart share only the summary
filename. -/
theorem run_filename_disjointness_witness :
    (writesOf (procScenario.save_outputs
        [("consciousness", "demo")] clockAdv)).map Prod.fst =
      ["regima_consciousness_analysis_20250101_000000.md",
       "ai_insights_summary.md",
       "regima_ai_analysis_20250101_000000.json"] ∧
    ∀ n, n ∈ (writesOf (procScenario.save_outputs
          [("consciousness", "demo")] clockAdv)).map Prod.fst →
      n ∈ (writesOf (procScenario.save_outputs
          [("consciousness", "demo")] clockAdv1)).map Prod.fst →
      n = "ai_insights_summary.md" := by
  have h := run_filename_disjointness procScenario procScenario
    [("consciousness", "demo")] [("consciousness", "demo")] clockAdv clockAdv1
    (writesOf (procScenario.save_outputs [("consciousness", "demo")] clockAdv))
    (writesOf (procScenario.save_outputs [("consciousness", "demo")] clockAdv1))
    (by rfl) (by rfl)
    (⟨by decide, by decide, by decide, by decide, by decide, by decide⟩)
    (⟨by decide, by decide, by decide, by decide, by decide, by decide⟩)
    (by decide)
  exact ⟨by rw [h.1]; rfl, h.2.2.2⟩

end RegimA

namespace RegimA

set_option maxRecDepth 100000 in
/-- C2 does not hold for every configuration input: when the
`organizationalConsciousness` value is a string rather than a mapping,
full-mode assembly raises (`AttributeError` in the script, which then
terminates with a nonzero status) instead of returning the four-key map. -/
theorem assemble_full_crash_counterexample :
    RegimAAIProcessor.generate_analysis
      ⟨.obj [("organizationalConsciousness", .str "Active")], .obj [], "full"⟩ =
      .error "AttributeError: get" := by rfl

end RegimA
